import Mathlib

/-!
Shallow embedding of the transaction builder in
src/zcash_primitives/src/transaction/builder.rs.

The builder orchestrates four value pools (transparent, Sapling, Orchard,
TZE) into a single balanced transaction.  The orchestration code
(`Builder::build`, `Builder::value_balance`, the change resolver, the
error taxonomy and its `PartialEq` instance, and all `add_*` and `set_*`
operations) is translated from the source file.  The per-pool sub-builders
(`TransparentBuilder`, `SaplingBuilder`, the inner Orchard builder,
`TzeBuilder`) and the `Amount` arithmetic live elsewhere in the repository
and are modelled from the specification where noted.
-/

namespace ZcashBuilder

/-- Amount bound. `MAX_MONEY` of the protocol: 21 000 000 coins of 10^8 zat.
Modelled from the spec: the `Amount` module of the repository is not part of
the provided sources; amounts are signed 64-bit quantities constrained to
the protocol range, and all arithmetic is fallible. -/
def MAX_MONEY : Int := 2100000000000000

/-- Default fee constant `DEFAULT_FEE` (10000 zat).
Modelled from the spec: the constant lives in the amount module, outside
the provided sources. -/
def DEFAULT_FEE : Int := 10000

/-- Source constant `DEFAULT_TX_EXPIRY_DELTA` (builder.rs line 51). -/
def DEFAULT_TX_EXPIRY_DELTA : Nat := 20

/-- Range-checked construction of an `Amount` from an integer.
Modelled from the spec: `Amount::from_i64` fails outside the protocol
range. -/
def amountFromI64 (n : Int) : Option Int :=
  if -MAX_MONEY ≤ n ∧ n ≤ MAX_MONEY then some n else none

/-- Checked amount addition; `None` on an out-of-range result. -/
def amountAdd (a b : Int) : Option Int := amountFromI64 (a + b)

/-- Checked amount subtraction; `None` on an out-of-range result. -/
def amountSub (a b : Int) : Option Int := amountFromI64 (a - b)

/-- Checked sum of a list of amounts, folded left with `amountAdd` from
zero, failing as soon as a partial sum leaves the protocol range; this is
the `sum::<Option<Amount>>` used by `Builder::value_balance`. -/
def sumAmounts (l : List Int) : Option Int :=
  l.foldl (fun acc x => acc.bind (fun a => amountAdd a x)) (some 0)

/-- Memo bytes attached to a shielded output; `MemoBytes::empty` is the
empty byte sequence. -/
structure MemoBytes where
  bytes : List Nat
deriving DecidableEq, Repr

/-- The empty memo `MemoBytes::empty()`. -/
def MemoBytes.empty : MemoBytes := ⟨[]⟩

/-- Transparent sub-builder error type (`transparent::builder::Error`).
Modelled from the spec: bad script or address, invalid amount, missing
secret key. -/
inductive TransparentError where
  | InvalidAddress
  | InvalidAmount
  | MissingSigningKey
deriving DecidableEq, Repr

/-- Sapling sub-builder error type (`sapling::builder::Error`).
Modelled from the spec: anchor mismatch, invalid amount, proof failure,
binding-signature failure. -/
inductive SaplingError where
  | AnchorMismatch
  | InvalidAmount
  | SpendProof
  | BindingSig
deriving DecidableEq, Repr

/-- Orchard bundle build error (`orchard::builder::Error`).  The upstream
type lacks structural equality; the builder compares such errors through
their canonical debug string, which is the only observable retained here. -/
structure OrchardBuildError where
  dbg : String
deriving DecidableEq, Repr

/-- TZE sub-builder error type (`tze::builder::Error`).
Modelled from the spec: witness closure failure or invalid output guard. -/
structure TzeError where
  code : Nat
deriving DecidableEq, Repr

/-- The builder error taxonomy, translated from `enum Error` in
builder.rs lines 53-65. -/
inductive Error where
  | ChangeIsNegative (amount : Int)
  | InvalidAmount
  | NoChangeAddress
  | TransparentBuild (e : TransparentError)
  | SaplingBuild (e : SaplingError)
  | OrchardBuild (e : OrchardBuildError)
  | OrchardComponent (msg : String)
  | NU5Inactive
  | TzeBuild (e : TzeError)
deriving DecidableEq, Repr

/-- Variant discriminant of a builder error, used to state that equality
never identifies distinct variants. -/
def Error.variantTag : Error → Nat
  | .ChangeIsNegative _ => 0
  | .InvalidAmount => 1
  | .NoChangeAddress => 2
  | .TransparentBuild _ => 3
  | .SaplingBuild _ => 4
  | .OrchardBuild _ => 5
  | .OrchardComponent _ => 6
  | .NU5Inactive => 7
  | .TzeBuild _ => 8

/-- Equality on builder errors, translated from `impl PartialEq for Error`
in builder.rs lines 89-107: payload variants compare structurally,
`OrchardBuild` compares the debug strings of its payloads, and the
catch-all arm makes distinct variants unequal. -/
def errorEq : Error → Error → Bool
  | .ChangeIsNegative a, .ChangeIsNegative b => decide (a = b)
  | .InvalidAmount, .InvalidAmount => true
  | .NoChangeAddress, .NoChangeAddress => true
  | .TransparentBuild a, .TransparentBuild b => decide (a = b)
  | .SaplingBuild a, .SaplingBuild b => decide (a = b)
  | .OrchardBuild a, .OrchardBuild b => decide (a.dbg = b.dbg)
  | .OrchardComponent a, .OrchardComponent b => decide (a = b)
  | .NU5Inactive, .NU5Inactive => true
  | .TzeBuild a, .TzeBuild b => decide (a = b)
  | _, _ => false

/-- Equality on builder errors as the specification words it: two errors
of different variants are never equal, `OrchardBuild` errors are equal
exactly when their canonical string forms are equal, and every other
variant compares by structural equality of its payload (payload-free
variants are equal to themselves). -/
def errorEqSpec : Error → Error → Prop
  | .ChangeIsNegative a, .ChangeIsNegative b => a = b
  | .InvalidAmount, .InvalidAmount => True
  | .NoChangeAddress, .NoChangeAddress => True
  | .TransparentBuild a, .TransparentBuild b => a = b
  | .SaplingBuild a, .SaplingBuild b => a = b
  | .OrchardBuild a, .OrchardBuild b => a.dbg = b.dbg
  | .OrchardComponent a, .OrchardComponent b => a = b
  | .NU5Inactive, .NU5Inactive => True
  | .TzeBuild a, .TzeBuild b => a = b
  | _, _ => False

/-- A Sapling spend recorded by the Sapling sub-builder: the outgoing
viewing key and payment address derived from the spending key, and the
note value.  Keys and addresses are opaque identifiers. -/
structure SaplingSpendInfo where
  ovk : Nat
  addr : Nat
  value : Int
deriving DecidableEq, Repr

/-- A Sapling output recorded by the Sapling sub-builder. -/
structure SaplingOutputInfo where
  ovk : Option Nat
  toAddr : Nat
  value : Int
  memo : MemoBytes
deriving DecidableEq, Repr

/-- A Sapling note offered for spending; the value of the note. -/
structure SaplingNote where
  value : Int
deriving DecidableEq, Repr

/-- A Sapling Merkle path; only the anchor it commits to is relevant. -/
structure SaplingPath where
  anchor : Nat
deriving DecidableEq, Repr

/-- State of the Sapling sub-builder.
Modelled from the spec: the `SaplingBuilder` sources are not part of the
provided files.  It accumulates spends and outputs, forces all spends to
share one anchor, and exposes the running value balance. -/
structure SaplingBuilderState where
  anchor : Option Nat
  spends : List SaplingSpendInfo
  outputs : List SaplingOutputInfo
deriving DecidableEq, Repr

/-- Fresh Sapling sub-builder (`SaplingBuilder::new`). -/
def SaplingBuilderState.new : SaplingBuilderState := ⟨none, [], []⟩

/-- Sapling value balance: spends minus outputs.
Modelled from the spec: `value_balance()` returns inputs minus outputs. -/
def SaplingBuilderState.value_balance (s : SaplingBuilderState) : Int :=
  (s.spends.map (fun x => x.value)).sum - (s.outputs.map (fun x => x.value)).sum

/-- Adding a Sapling spend.
Modelled from the spec: fails with an anchor mismatch when the Merkle path
does not share the anchor of previous spends, and with an invalid amount
when the note value is outside the protocol range. -/
def SaplingBuilderState.add_spend (s : SaplingBuilderState) (ovk addr : Nat)
    (note : SaplingNote) (path : SaplingPath) :
    Except SaplingError SaplingBuilderState :=
  if note.value < 0 ∨ MAX_MONEY < note.value then .error .InvalidAmount
  else
    match s.anchor with
    | none =>
        .ok { s with anchor := some path.anchor,
                     spends := s.spends ++ [⟨ovk, addr, note.value⟩] }
    | some a =>
        if a = path.anchor then
          .ok { s with spends := s.spends ++ [⟨ovk, addr, note.value⟩] }
        else .error .AnchorMismatch

/-- Adding a Sapling output.
Modelled from the spec: fails with an invalid amount when the value is
negative or outside the protocol range. -/
def SaplingBuilderState.add_output (s : SaplingBuilderState) (ovk : Option Nat)
    (toAddr : Nat) (value : Int) (memo : MemoBytes) :
    Except SaplingError SaplingBuilderState :=
  if value < 0 ∨ MAX_MONEY < value then .error .InvalidAmount
  else .ok { s with outputs := s.outputs ++ [⟨ovk, toAddr, value, memo⟩] }

/-- Candidate change address of the Sapling sub-builder: the (ovk,
address) pair of the first Sapling spend added.
Modelled from the spec and the documentation of `send_change_to`. -/
def SaplingBuilderState.get_candidate_change_address (s : SaplingBuilderState) :
    Option (Nat × Nat) :=
  s.spends.head?.map (fun sp => (sp.ovk, sp.addr))

/-- State of the transparent sub-builder.
Modelled from the spec: the `TransparentBuilder` sources are not part of
the provided files.  Inputs are coin values, outputs are (address, value)
pairs. -/
structure TransparentBuilderState where
  inputs : List Int
  outputs : List (Nat × Int)
deriving DecidableEq, Repr

/-- Fresh transparent sub-builder (`TransparentBuilder::empty`). -/
def TransparentBuilderState.empty : TransparentBuilderState := ⟨[], []⟩

/-- Transparent value balance, an `Option` that is `None` when the result
is unrepresentable.  Modelled from the spec. -/
def TransparentBuilderState.value_balance (t : TransparentBuilderState) :
    Option Int :=
  amountFromI64 (t.inputs.sum - (t.outputs.map Prod.snd).sum)

/-- Adding a transparent input.
Modelled from the spec: fails when the coin value is out of range. -/
def TransparentBuilderState.add_input (t : TransparentBuilderState)
    (coinValue : Int) : Except TransparentError TransparentBuilderState :=
  if coinValue < 0 ∨ MAX_MONEY < coinValue then .error .InvalidAmount
  else .ok { t with inputs := t.inputs ++ [coinValue] }

/-- Adding a transparent output.
Modelled from the spec: fails with an invalid amount when the value is
negative or out of range. -/
def TransparentBuilderState.add_output (t : TransparentBuilderState)
    (addr : Nat) (value : Int) : Except TransparentError TransparentBuilderState :=
  if value < 0 ∨ MAX_MONEY < value then .error .InvalidAmount
  else .ok { t with outputs := t.outputs ++ [(addr, value)] }

/-- An Orchard note offered for spending. -/
structure OrchardNote where
  value : Nat
deriving DecidableEq, Repr

/-- An Orchard Merkle path; only its anchor is relevant. -/
structure OrchardPath where
  anchor : Nat
deriving DecidableEq, Repr

/-- Inner Orchard bundle builder, present only when NU5 is active at the
target height.  Modelled from the spec: the anchor is fixed at
construction, spends must match it, recipients carry unsigned values. -/
structure OrchardInnerState where
  anchor : Nat
  spends : List OrchardNote
  recipients : List Nat
deriving DecidableEq, Repr

/-- Orchard inner value balance as a signed integer: spends minus
recipients.  Modelled from the spec. -/
def OrchardInnerState.value_balance (o : OrchardInnerState) : Int :=
  ((o.spends.map (fun n => (n.value : Int))).sum) -
    ((o.recipients.map (fun v => (v : Int))).sum)

/-- Adding an Orchard spend to the inner builder.
Modelled from the spec: rejected with a component message when the Merkle
path does not have the anchor fixed at construction. -/
def OrchardInnerState.add_spend (o : OrchardInnerState) (note : OrchardNote)
    (path : OrchardPath) : Except String OrchardInnerState :=
  if o.anchor = path.anchor then .ok { o with spends := o.spends ++ [note] }
  else .error "anchor mismatch"

/-- Adding an Orchard recipient to the inner builder.
Modelled from the spec: recipient values are unsigned, so the addition
always succeeds here. -/
def OrchardInnerState.add_recipient (o : OrchardInnerState) (value : Nat) :
    OrchardInnerState :=
  { o with recipients := o.recipients ++ [value] }

/-- Value balance of the possibly absent Orchard builder, as the `i64`
consumed by `Builder::value_balance`; an absent builder contributes zero.
Modelled from the spec: the `UseOrchard` trait implementations are not
part of the provided sources. -/
def orchardValueBalance : Option OrchardInnerState → Int
  | none => 0
  | some o => o.value_balance

/-- The change-address override, translated from `enum ChangeAddress` in
builder.rs lines 140-142; its only variant carries a Sapling (ovk,
address) pair. -/
inductive ChangeAddress where
  | SaplingChangeAddress (ovk : Nat) (addr : Nat)
deriving DecidableEq, Repr

/-- The builder state, translated from `struct Builder` in builder.rs
lines 145-162.  Consensus parameters, the randomness source, and typed
keys are abstracted; the Orchard sub-builder is its inner `Option`,
absent both for builders constructed without Orchard support and for
Orchard builders at a pre-NU5 height. -/
structure Builder where
  target_height : Nat
  expiry_height : Nat
  fee : Int
  transparent_builder : TransparentBuilderState
  sapling_builder : SaplingBuilderState
  contains_orchard : Bool
  orchard_builder : Option OrchardInnerState
  orchard_spending_keys : List Nat
  change_address : Option ChangeAddress
  tze_inputs : List Int
  tze_outputs : List Int
  progress_notifier : Bool
deriving DecidableEq, Repr

/-- Builder construction, translated from `Builder::new_internal` in
builder.rs lines 216-235: expiry is the target height plus the default
delta, the fee is the default fee, all pools are empty, and the
`contains_orchard` flag is false. -/
def Builder.new_internal (target_height : Nat)
    (orchard_builder : Option OrchardInnerState) : Builder where
  target_height := target_height
  expiry_height := target_height + DEFAULT_TX_EXPIRY_DELTA
  fee := DEFAULT_FEE
  transparent_builder := TransparentBuilderState.empty
  sapling_builder := SaplingBuilderState.new
  contains_orchard := false
  orchard_builder := orchard_builder
  orchard_spending_keys := []
  change_address := none
  tze_inputs := []
  tze_outputs := []
  progress_notifier := false

/-- TZE value balance of the builder.  Modelled from the spec: the
`TzeBuilder` sources are not part of the provided files. -/
def Builder.tze_value_balance (b : Builder) : Option Int :=
  amountFromI64 (b.tze_inputs.sum - b.tze_outputs.sum)

/-- Sum of the transparent, Sapling, Orchard, and TZE value balances,
translated from `Builder::value_balance` in builder.rs lines 368-386:
each fallible per-pool balance converts `None` into `InvalidAmount`, and
the four amounts are summed with checked arithmetic. -/
def Builder.value_balance (b : Builder) : Except Error Int :=
  match b.transparent_builder.value_balance with
  | none => .error .InvalidAmount
  | some t =>
    match amountFromI64 (orchardValueBalance b.orchard_builder) with
    | none => .error .InvalidAmount
    | some o =>
      match b.tze_value_balance with
      | none => .error .InvalidAmount
      | some z =>
        match sumAmounts [t, b.sapling_builder.value_balance, o, z] with
        | none => .error .InvalidAmount
        | some vb => .ok vb

/-- Raw (unchecked) sum of the per-pool value balances, used to state the
balance invariant mathematically. -/
def Builder.rawBalance (b : Builder) : Int :=
  (b.transparent_builder.inputs.sum - (b.transparent_builder.outputs.map Prod.snd).sum)
    + b.sapling_builder.value_balance
    + orchardValueBalance b.orchard_builder
    + (b.tze_inputs.sum - b.tze_outputs.sum)

/-- Setting a custom fee, translated from `Builder::set_custom_fee` in
builder.rs lines 389-391: the argument is stored unchecked. -/
def Builder.set_custom_fee (b : Builder) (custom_fee : Int) : Builder :=
  { b with fee := custom_fee }

/-- Overriding the change destination, translated from
`Builder::send_change_to` in builder.rs lines 353-355. -/
def Builder.send_change_to (b : Builder) (ovk addr : Nat) : Builder :=
  { b with change_address := some (ChangeAddress.SaplingChangeAddress ovk addr) }

/-- Registering a progress notifier, translated from
`Builder::with_progress_notifier` in builder.rs lines 363-365. -/
def Builder.with_progress_notifier (b : Builder) : Builder :=
  { b with progress_notifier := true }

/-- Adding a Sapling spend, translated from `Builder::add_sapling_spend`
in builder.rs lines 299-309: delegates to the Sapling sub-builder and
wraps its error; the builder state is updated only on success. -/
def Builder.add_sapling_spend (b : Builder) (ovk addr : Nat)
    (note : SaplingNote) (path : SaplingPath) : Builder × Except Error Unit :=
  match b.sapling_builder.add_spend ovk addr note path with
  | .error e => (b, .error (.SaplingBuild e))
  | .ok s => ({ b with sapling_builder := s }, .ok ())

/-- Adding a Sapling output, translated from `Builder::add_sapling_output`
in builder.rs lines 312-322. -/
def Builder.add_sapling_output (b : Builder) (ovk : Option Nat) (toAddr : Nat)
    (value : Int) (memo : MemoBytes) : Builder × Except Error Unit :=
  match b.sapling_builder.add_output ovk toAddr value memo with
  | .error e => (b, .error (.SaplingBuild e))
  | .ok s => ({ b with sapling_builder := s }, .ok ())

/-- Adding a transparent input, translated from
`Builder::add_transparent_input` in builder.rs lines 327-336. -/
def Builder.add_transparent_input (b : Builder) (coinValue : Int) :
    Builder × Except Error Unit :=
  match b.transparent_builder.add_input coinValue with
  | .error e => (b, .error (.TransparentBuild e))
  | .ok t => ({ b with transparent_builder := t }, .ok ())

/-- Adding a transparent output, translated from
`Builder::add_transparent_output` in builder.rs lines 339-347. -/
def Builder.add_transparent_output (b : Builder) (addr : Nat) (value : Int) :
    Builder × Except Error Unit :=
  match b.transparent_builder.add_output addr value with
  | .error e => (b, .error (.TransparentBuild e))
  | .ok t => ({ b with transparent_builder := t }, .ok ())

/-- Adding an Orchard spend, translated from `Builder::add_orchard_spend`
in builder.rs lines 251-268: the `contains_orchard` flag is set and the
spend-authorizing key is pushed before the inner builder is consulted, so
both mutations survive an `NU5Inactive` or component error. -/
def Builder.add_orchard_spend (b : Builder) (sk : Nat) (note : OrchardNote)
    (path : OrchardPath) : Builder × Except Error Unit :=
  let b1 := { b with contains_orchard := true,
                     orchard_spending_keys := b.orchard_spending_keys ++ [sk] }
  match b1.orchard_builder with
  | none => (b1, .error .NU5Inactive)
  | some o =>
    match o.add_spend note path with
    | .error msg => (b1, .error (.OrchardComponent msg))
    | .ok o2 => ({ b1 with orchard_builder := some o2 }, .ok ())

/-- Adding an Orchard output, translated from
`Builder::add_orchard_output` in builder.rs lines 271-291: the
`contains_orchard` flag is set before the inner builder is consulted. -/
def Builder.add_orchard_output (b : Builder) (value : Nat) :
    Builder × Except Error Unit :=
  let b1 := { b with contains_orchard := true }
  match b1.orchard_builder with
  | none => (b1, .error .NU5Inactive)
  | some o => ({ b1 with orchard_builder := some (o.add_recipient value) }, .ok ())

/-- Adding a TZE input, translated from `add_tze_input` in builder.rs
lines 565-579; the witness builder is deferred, the input is recorded. -/
def Builder.add_tze_input (b : Builder) (coinValue : Int) : Builder :=
  { b with tze_inputs := b.tze_inputs ++ [coinValue] }

/-- Adding a TZE output, translated from `add_tze_output` in builder.rs
lines 581-588. -/
def Builder.add_tze_output (b : Builder) (value : Int) : Builder :=
  { b with tze_outputs := b.tze_outputs ++ [value] }

/-- The change-resolution step at the head of `Builder::build`
(builder.rs lines 411-439): the change is the checked difference between
the summed pool balances and the fee; a negative change aborts the build,
a positive change injects exactly one Sapling output with an empty memo,
sent to the explicit change address when one was set (which is taken,
clearing the field) and otherwise to the candidate change address of the
Sapling sub-builder, failing with `NoChangeAddress` when none exists. -/
def resolveChange (b : Builder) : Except Error Builder :=
  match b.value_balance with
  | .error e => .error e
  | .ok vb =>
    match amountSub vb b.fee with
    | none => .error .InvalidAmount
    | some change =>
      if change < 0 then .error (.ChangeIsNegative change)
      else if 0 < change then
        match b.change_address with
        | some (ChangeAddress.SaplingChangeAddress ovk addr) =>
          match b.sapling_builder.add_output (some ovk) addr change MemoBytes.empty with
          | .error e => .error (.SaplingBuild e)
          | .ok s => .ok { b with change_address := none, sapling_builder := s }
        | none =>
          match b.sapling_builder.get_candidate_change_address with
          | none => .error .NoChangeAddress
          | some (ovk, addr) =>
            match b.sapling_builder.add_output (some ovk) addr change MemoBytes.empty with
            | .error e => .error (.SaplingBuild e)
            | .ok s => .ok { b with sapling_builder := s }
      else .ok b

/-- The transparent bundle of the assembled transaction. -/
structure TransparentBundle where
  vin : List Int
  vout : List (Nat × Int)
deriving DecidableEq, Repr

/-- Building the transparent bundle.
Modelled from the spec: `TransparentBuilder::build` packages the inputs
and outputs, yielding no bundle when both are empty. -/
def TransparentBuilderState.build (t : TransparentBuilderState) :
    Option TransparentBundle :=
  if t.inputs = [] ∧ t.outputs = [] then none
  else some ⟨t.inputs, t.outputs⟩

/-- The proved Sapling bundle of the assembled transaction; proof bytes
and ciphertexts are external collaborators and are not represented. -/
structure SaplingBundle where
  shielded_spends : List SaplingSpendInfo
  shielded_outputs : List SaplingOutputInfo
deriving DecidableEq, Repr

/-- Building the Sapling bundle.
Modelled from the spec and the source test
`binding_sig_absent_if_no_shielded_spend_or_output`: the bundle is absent
exactly when the sub-builder holds no spend and no output. -/
def SaplingBuilderState.build (s : SaplingBuilderState) : Option SaplingBundle :=
  if s.spends = [] ∧ s.outputs = [] then none
  else some ⟨s.spends, s.outputs⟩

/-- The still-unproved Orchard bundle of the assembled transaction. -/
structure OrchardBundle where
  inner : OrchardInnerState
deriving DecidableEq, Repr

/-- Building the Orchard bundle from the possibly absent inner builder.
Modelled from the spec: an absent inner builder yields no bundle; a
present one assembles its accumulated state, unproved at this stage. -/
def orchardBuild : Option OrchardInnerState → Option OrchardBundle
  | none => none
  | some o => some ⟨o⟩

/-- The TZE bundle of the assembled transaction.
Modelled from the spec for the extension-enabled configuration. -/
structure TzeBundle where
  vin : List Int
  vout : List Int
deriving DecidableEq, Repr

/-- Building the TZE bundle; absent when no TZE input or output exists. -/
def Builder.tzeBuild (b : Builder) : Option TzeBundle :=
  if b.tze_inputs = [] ∧ b.tze_outputs = [] then none
  else some ⟨b.tze_inputs, b.tze_outputs⟩

/-- Transaction version suggested for the consensus branch at the target
height.  Modelled from the spec: `TxVersion::suggested_for_branch` of
`BranchId::for_height` lives outside the provided sources; NU5-active
heights select version 5, earlier heights version 4. -/
def suggestedVersion (height : Nat) : Nat :=
  if 1687104 ≤ height then 5 else 4

/-- The assembled transaction record, mirroring the `TransactionData`
fields populated by `Builder::build` (builder.rs lines 469-480 and
539-550). -/
structure TxData where
  version : Nat
  lock_time : Nat
  expiry_height : Nat
  transparent_bundle : Option TransparentBundle
  sprout_bundle : Option Unit
  sapling_bundle : Option SaplingBundle
  orchard_bundle : Option OrchardBundle
  tze_bundle : Option TzeBundle
deriving DecidableEq, Repr

/-- Observable steps of the signing phase of `Builder::build`, recorded in
the order the source executes them. -/
inductive BuildEvent where
  | txidDigest
  | transparentSigs
  | tzeSigs
  | signableCommitment
  | saplingSigs
  | orchardProof
  | orchardSigs
deriving DecidableEq, Repr

/-- Whether an event applies a signature to some pool. -/
def BuildEvent.isSignature : BuildEvent → Bool
  | .transparentSigs => true
  | .tzeSigs => true
  | .saplingSigs => true
  | .orchardSigs => true
  | _ => false

/-- The digest-precedence property as the claim states it for one build:
no signature application and no Orchard proof occurs in the trace before
the shielded signable commitment is computed. -/
def commitmentPrecedesSignatures (tr : List BuildEvent) : Bool :=
  (tr.takeWhile (fun e => e ≠ BuildEvent.signableCommitment)).all
    (fun e => !e.isSignature && e ≠ BuildEvent.orchardProof)

/-- The orchestrator `Builder::build` (builder.rs lines 397-555).  After
the change resolution it packages the per-pool bundles (the Orchard bundle
only under `contains_orchard`), assembles the unsigned skeleton with
`lock_time = 0` and no Sprout bundle, computes the txid digest, applies
transparent and TZE signatures, computes the shielded signable
commitment, applies the Sapling binding signature, and finally proves and
signs the Orchard bundle.  Proving and signing are external collaborators
abstracted as always succeeding; the order in which the source performs
them is recorded as an event trace alongside the transaction. -/
def buildTx (b : Builder) : Except Error (TxData × List BuildEvent) :=
  match resolveChange b with
  | .error e => .error e
  | .ok b2 =>
    let transparent_bundle := b2.transparent_builder.build
    let sapling_bundle := b2.sapling_builder.build
    let orchard_bundle :=
      if b2.contains_orchard then orchardBuild b2.orchard_builder else none
    let tze_bundle := b2.tzeBuild
    let tx : TxData :=
      { version := suggestedVersion b2.target_height
        lock_time := 0
        expiry_height := b2.expiry_height
        transparent_bundle := transparent_bundle
        sprout_bundle := none
        sapling_bundle := sapling_bundle
        orchard_bundle := orchard_bundle
        tze_bundle := tze_bundle }
    let tr : List BuildEvent :=
      [BuildEvent.txidDigest]
        ++ (if transparent_bundle.isSome then [BuildEvent.transparentSigs] else [])
        ++ (if tze_bundle.isSome then [BuildEvent.tzeSigs] else [])
        ++ [BuildEvent.signableCommitment]
        ++ (if sapling_bundle.isSome then [BuildEvent.saplingSigs] else [])
        ++ (if orchard_bundle.isSome then
              [BuildEvent.orchardProof, BuildEvent.orchardSigs] else [])
    .ok (tx, tr)

/-- Builder mutations available between construction and `build`, used to
speak about every reachable point of a builder lifetime. -/
inductive BuilderOp where
  | sapSpend (ovk addr : Nat) (note : SaplingNote) (path : SaplingPath)
  | sapOutput (ovk : Option Nat) (toAddr : Nat) (value : Int) (memo : MemoBytes)
  | tInput (coinValue : Int)
  | tOutput (addr : Nat) (value : Int)
  | orchSpend (sk : Nat) (note : OrchardNote) (path : OrchardPath)
  | orchOutput (value : Nat)
  | tzeInput (coinValue : Int)
  | tzeOutput (value : Int)
  | sendChangeTo (ovk addr : Nat)
  | setCustomFee (amount : Int)
  | withProgress
deriving DecidableEq, Repr

/-- Applying one mutation; fallible operations leave the state their
source leaves behind, error or not. -/
def applyOp (b : Builder) : BuilderOp → Builder
  | .sapSpend ovk addr note path => (b.add_sapling_spend ovk addr note path).1
  | .sapOutput ovk toAddr value memo => (b.add_sapling_output ovk toAddr value memo).1
  | .tInput coinValue => (b.add_transparent_input coinValue).1
  | .tOutput addr value => (b.add_transparent_output addr value).1
  | .orchSpend sk note path => (b.add_orchard_spend sk note path).1
  | .orchOutput value => (b.add_orchard_output value).1
  | .tzeInput coinValue => b.add_tze_input coinValue
  | .tzeOutput value => b.add_tze_output value
  | .sendChangeTo ovk addr => b.send_change_to ovk addr
  | .setCustomFee amount => b.set_custom_fee amount
  | .withProgress => b.with_progress_notifier

/-- Applying a sequence of mutations in order. -/
def applyOps (b : Builder) (ops : List BuilderOp) : Builder :=
  ops.foldl applyOp b

/-- Whether a mutation is an Orchard spend or output addition. -/
def BuilderOp.isOrchardOp : BuilderOp → Bool
  | .orchSpend _ _ _ => true
  | .orchOutput _ => true
  | _ => false

/-- The check of the amended digest-precedence property on one signing
trace: the txid digest comes first, only transparent and TZE signature
applications may precede the shielded signable commitment, the commitment
occurs, and after it only the Sapling binding signature, the Orchard
proof, and the Orchard signatures follow. -/
def amendedDigestOrder (tr : List BuildEvent) : Bool :=
  (tr.head? == some BuildEvent.txidDigest) &&
  ((tr.takeWhile (fun e => !(e == BuildEvent.signableCommitment))).all
      (fun e => e == BuildEvent.txidDigest || e == BuildEvent.transparentSigs ||
        e == BuildEvent.tzeSigs)) &&
  (((tr.dropWhile (fun e => !(e == BuildEvent.signableCommitment))).drop 1).all
      (fun e => e == BuildEvent.saplingSigs || e == BuildEvent.orchardProof ||
        e == BuildEvent.orchardSigs)) &&
  (tr.contains BuildEvent.signableCommitment)

theorem amountFromI64_eq {n m : Int} (h : amountFromI64 n = some m) :
    m = n ∧ -MAX_MONEY ≤ n ∧ n ≤ MAX_MONEY := by
  unfold amountFromI64 at h
  by_cases hc : -MAX_MONEY ≤ n ∧ n ≤ MAX_MONEY
  · rw [if_pos hc] at h
    injection h with h
    exact ⟨h.symm, hc.1, hc.2⟩
  · rw [if_neg hc] at h
    exact absurd h (by simp)

theorem foldl_amount_none (l : List Int) :
    l.foldl (fun acc x => acc.bind (fun a => amountAdd a x)) none = none := by
  induction l with
  | nil => rfl
  | cons x xs ih => simpa using ih

theorem foldl_amount_acc (l : List Int) : ∀ acc v : Int,
    l.foldl (fun a x => a.bind (fun y => amountAdd y x)) (some acc) = some v →
    v = acc + l.sum := by
  induction l with
  | nil =>
    intro acc v h
    simp only [List.foldl_nil, Option.some.injEq] at h
    simp [h.symm]
  | cons x xs ih =>
    intro acc v h
    rw [List.foldl_cons] at h
    simp only [Option.bind_some, Option.some_bind] at h
    cases hax : amountAdd acc x with
    | none =>
      rw [hax, foldl_amount_none] at h
      exact absurd h (by simp)
    | some y =>
      rw [hax] at h
      have hy := (amountFromI64_eq (by simpa [amountAdd] using hax)).1
      have hv := ih y v h
      rw [List.sum_cons]
      omega

theorem sumAmounts_eq {l : List Int} {v : Int} (h : sumAmounts l = some v) :
    v = l.sum := by
  have := foldl_amount_acc l 0 v (by simpa [sumAmounts] using h)
  omega

theorem value_balance_raw {b : Builder} {vb : Int}
    (h : b.value_balance = .ok vb) : b.rawBalance = vb := by
  unfold Builder.value_balance at h
  cases ht : b.transparent_builder.value_balance with
  | none => rw [ht] at h; exact absurd h (by simp)
  | some t =>
  simp only [ht] at h
  cases ho : amountFromI64 (orchardValueBalance b.orchard_builder) with
  | none => simp only [ho] at h; exact absurd h (by simp)
  | some o =>
  simp only [ho] at h
  cases hz : b.tze_value_balance with
  | none => simp only [hz] at h; exact absurd h (by simp)
  | some z =>
  simp only [hz] at h
  cases hs : sumAmounts [t, b.sapling_builder.value_balance, o, z] with
  | none => simp only [hs] at h; exact absurd h (by simp)
  | some v =>
  simp only [hs, Except.ok.injEq] at h
  subst h
  have hsum := sumAmounts_eq hs
  have hteq := (amountFromI64_eq
    (by simpa [TransparentBuilderState.value_balance] using ht)).1
  have hoeq := (amountFromI64_eq ho).1
  have hzeq := (amountFromI64_eq
    (by simpa [Builder.tze_value_balance] using hz)).1
  simp only [List.sum_cons, List.sum_nil] at hsum
  unfold Builder.rawBalance
  omega

theorem add_output_ok {s s' : SaplingBuilderState} {ovk : Option Nat}
    {toAddr : Nat} {value : Int} {memo : MemoBytes}
    (h : s.add_output ovk toAddr value memo = .ok s') :
    s' = { s with outputs := s.outputs ++ [⟨ovk, toAddr, value, memo⟩] } := by
  unfold SaplingBuilderState.add_output at h
  split at h
  · exact absurd h (by simp)
  · injection h with h
    exact h.symm

theorem append_output_value_balance (s : SaplingBuilderState) (ovk : Option Nat)
    (toAddr : Nat) (value : Int) (memo : MemoBytes) :
    SaplingBuilderState.value_balance
        { s with outputs := s.outputs ++ [⟨ovk, toAddr, value, memo⟩] }
      = s.value_balance - value := by
  unfold SaplingBuilderState.value_balance
  simp only [List.map_append, List.sum_append, List.map_cons, List.map_nil,
    List.sum_cons, List.sum_nil]
  omega

theorem resolveChange_ok {b b' : Builder} (h : resolveChange b = .ok b') :
    ∃ vb change, b.value_balance = .ok vb ∧ amountSub vb b.fee = some change ∧
      0 ≤ change ∧ b'.fee = b.fee ∧ b'.contains_orchard = b.contains_orchard ∧
      b'.transparent_builder = b.transparent_builder ∧
      b'.orchard_builder = b.orchard_builder ∧
      b'.tze_inputs = b.tze_inputs ∧ b'.tze_outputs = b.tze_outputs ∧
      b'.target_height = b.target_height ∧
      b'.sapling_builder.value_balance
        = b.sapling_builder.value_balance - change := by
  unfold resolveChange at h
  cases hvb : b.value_balance with
  | error e => simp only [hvb] at h; exact absurd h (by simp)
  | ok vb =>
  simp only [hvb] at h
  cases hsub : amountSub vb b.fee with
  | none => simp only [hsub] at h; exact absurd h (by simp)
  | some change =>
  simp only [hsub] at h
  refine ⟨vb, change, rfl, hsub, ?_⟩
  split at h
  · exact absurd h (by simp)
  · rename_i hneg
    split at h
    · rename_i hpos
      cases hca : b.change_address with
      | some ca =>
        cases ca with
        | SaplingChangeAddress ovk addr =>
          simp only [hca] at h
          cases hout : b.sapling_builder.add_output (some ovk) addr change
              MemoBytes.empty with
          | error e => simp only [hout] at h; exact absurd h (by simp)
          | ok s =>
            simp only [hout, Except.ok.injEq] at h
            subst h
            have hs := add_output_ok hout
            subst hs
            refine ⟨by omega, rfl, rfl, rfl, rfl, rfl, rfl, rfl, ?_⟩
            exact append_output_value_balance _ _ _ _ _
      | none =>
        simp only [hca] at h
        cases hcand : b.sapling_builder.get_candidate_change_address with
        | none => simp only [hcand] at h; exact absurd h (by simp)
        | some p =>
          simp only [hcand] at h
          cases hout : b.sapling_builder.add_output (some p.1) p.2 change
              MemoBytes.empty with
          | error e => simp only [hout] at h; exact absurd h (by simp)
          | ok s =>
            simp only [hout, Except.ok.injEq] at h
            subst h
            have hs := add_output_ok hout
            subst hs
            refine ⟨by omega, rfl, rfl, rfl, rfl, rfl, rfl, rfl, ?_⟩
            exact append_output_value_balance _ _ _ _ _
    · rename_i hpos
      simp only [Except.ok.injEq] at h
      subst h
      refine ⟨by omega, rfl, rfl, rfl, rfl, rfl, rfl, rfl, ?_⟩
      omega

theorem applyOp_fee (b : Builder) (op : BuilderOp) :
    (applyOp b op).fee = (match op with
      | BuilderOp.setCustomFee a => a
      | _ => b.fee) := by
  cases op with
  | sapSpend ovk addr note path =>
    simp only [applyOp, Builder.add_sapling_spend]
    cases b.sapling_builder.add_spend ovk addr note path <;> rfl
  | sapOutput ovk toAddr value memo =>
    simp only [applyOp, Builder.add_sapling_output]
    cases b.sapling_builder.add_output ovk toAddr value memo <;> rfl
  | tInput v =>
    simp only [applyOp, Builder.add_transparent_input]
    cases b.transparent_builder.add_input v <;> rfl
  | tOutput addr v =>
    simp only [applyOp, Builder.add_transparent_output]
    cases b.transparent_builder.add_output addr v <;> rfl
  | orchSpend sk note path =>
    simp only [applyOp, Builder.add_orchard_spend]
    cases b.orchard_builder with
    | none => rfl
    | some o => cases h : o.add_spend note path <;> simp [h]
  | orchOutput v =>
    simp only [applyOp, Builder.add_orchard_output]
    cases b.orchard_builder <;> rfl
  | tzeInput v => rfl
  | tzeOutput v => rfl
  | sendChangeTo ovk addr => rfl
  | setCustomFee a => rfl
  | withProgress => rfl

theorem applyOp_contains_orchard (b : Builder) (op : BuilderOp) :
    (applyOp b op).contains_orchard = (b.contains_orchard || op.isOrchardOp) := by
  cases op with
  | sapSpend ovk addr note path =>
    simp only [applyOp, Builder.add_sapling_spend, BuilderOp.isOrchardOp,
      Bool.or_false]
    cases b.sapling_builder.add_spend ovk addr note path <;> rfl
  | sapOutput ovk toAddr value memo =>
    simp only [applyOp, Builder.add_sapling_output, BuilderOp.isOrchardOp,
      Bool.or_false]
    cases b.sapling_builder.add_output ovk toAddr value memo <;> rfl
  | tInput v =>
    simp only [applyOp, Builder.add_transparent_input, BuilderOp.isOrchardOp,
      Bool.or_false]
    cases b.transparent_builder.add_input v <;> rfl
  | tOutput addr v =>
    simp only [applyOp, Builder.add_transparent_output, BuilderOp.isOrchardOp,
      Bool.or_false]
    cases b.transparent_builder.add_output addr v <;> rfl
  | orchSpend sk note path =>
    simp only [applyOp, Builder.add_orchard_spend, BuilderOp.isOrchardOp,
      Bool.or_true]
    cases b.orchard_builder with
    | none => rfl
    | some o => cases h : o.add_spend note path <;> simp [h]
  | orchOutput v =>
    simp only [applyOp, Builder.add_orchard_output, BuilderOp.isOrchardOp,
      Bool.or_true]
    cases b.orchard_builder <;> rfl
  | tzeInput v => simp [applyOp, Builder.add_tze_input, BuilderOp.isOrchardOp]
  | tzeOutput v => simp [applyOp, Builder.add_tze_output, BuilderOp.isOrchardOp]
  | sendChangeTo ovk addr =>
    simp [applyOp, Builder.send_change_to, BuilderOp.isOrchardOp]
  | setCustomFee a => simp [applyOp, Builder.set_custom_fee, BuilderOp.isOrchardOp]
  | withProgress =>
    simp [applyOp, Builder.with_progress_notifier, BuilderOp.isOrchardOp]

theorem applyOps_contains_orchard (ops : List BuilderOp) : ∀ b : Builder,
    (applyOps b ops).contains_orchard
      = (b.contains_orchard || ops.any BuilderOp.isOrchardOp) := by
  induction ops with
  | nil => intro b; simp [applyOps]
  | cons op ops ih =>
    intro b
    show (applyOps (applyOp b op) ops).contains_orchard = _
    rw [ih (applyOp b op), applyOp_contains_orchard]
    simp [Bool.or_assoc]

theorem applyOps_fee_nonneg (ops : List BuilderOp) : ∀ b : Builder, 0 ≤ b.fee →
    (∀ a : Int, BuilderOp.setCustomFee a ∈ ops → 0 ≤ a) →
    0 ≤ (applyOps b ops).fee := by
  induction ops with
  | nil => intro b hb _; exact hb
  | cons op ops ih =>
    intro b hb hops
    have h1 : 0 ≤ (applyOp b op).fee := by
      rw [applyOp_fee]
      cases op
      case setCustomFee a => exact hops a (List.mem_cons_self _ _)
      all_goals exact hb
    have h2 : ∀ a : Int, BuilderOp.setCustomFee a ∈ ops → 0 ≤ a :=
      fun a ha => hops a (List.mem_cons_of_mem _ ha)
    exact ih (applyOp b op) h1 h2

/-- Example: a builder with the default fee replaced by zero and one
zero-valued transparent output, mirroring the source test
`binding_sig_absent_if_no_shielded_spend_or_output`. -/
def exTransparentOnly : Builder :=
  applyOps (Builder.new_internal 0 none)
    [BuilderOp.setCustomFee 0, BuilderOp.tOutput 0 0]

/-- The transaction produced by building `exTransparentOnly`. -/
def exTransparentOnlyTx : TxData :=
  { version := 4, lock_time := 0, expiry_height := 20,
    transparent_bundle := some ⟨[], [(0, 0)]⟩, sprout_bundle := none,
    sapling_bundle := none, orchard_bundle := none, tze_bundle := none }

/-- Example: a builder funded by a single transparent input that exactly
covers the default fee. -/
def exFunded : Builder :=
  applyOps (Builder.new_internal 0 none) [BuilderOp.tInput 10000]

/-- The transaction produced by building `exFunded`. -/
def exFundedTx : TxData :=
  { version := 4, lock_time := 0, expiry_height := 20,
    transparent_bundle := some ⟨[10000], []⟩, sprout_bundle := none,
    sapling_bundle := none, orchard_bundle := none, tze_bundle := none }

/-- The signing trace shared by `exTransparentOnly` and `exFunded`: txid
digest, transparent signatures, then the shielded signable commitment. -/
def sigTrace : List BuildEvent :=
  [BuildEvent.txidDigest, BuildEvent.transparentSigs,
   BuildEvent.signableCommitment]

/-- Example: a builder holding one Sapling spend worth 20000 zat, leaving
10000 zat of change over the default fee. -/
def exSpend : Builder :=
  applyOps (Builder.new_internal 0 none)
    [BuilderOp.sapSpend 1 2 ⟨20000⟩ ⟨9⟩]

/-- The builder `exSpend` after change resolution injected the 10000 zat
change output addressed to the pair of its first spend. -/
def exSpendChanged : Builder :=
  { exSpend with sapling_builder :=
      { exSpend.sapling_builder with
        outputs := [⟨some 1, 2, 10000, MemoBytes.empty⟩] } }

/-- C3 counterexample: on a builder whose Orchard sub-builder is absent,
`add_orchard_spend` returns `NU5Inactive` yet leaves `contains_orchard`
latched to true, so the claimed invariant fails after an errored Orchard
call. -/
theorem contains_orchard_counterexample :
    ((Builder.new_internal 0 none).add_orchard_spend 7 ⟨5⟩ ⟨0⟩).2
        = .error .NU5Inactive ∧
    ((Builder.new_internal 0 none).add_orchard_spend 7 ⟨5⟩ ⟨0⟩).1.contains_orchard
        = true :=
  ⟨rfl, rfl⟩

/-- C3 (amended): `contains_orchard` is false at construction and after
any operation sequence containing no Orchard addition, and every
`add_orchard_spend` or `add_orchard_output` call sets it to true, even one
that fails with `NU5Inactive`: over any run the flag equals whether some
Orchard addition was attempted. -/
theorem contains_orchard_latches (h : Nat) (o : Option OrchardInnerState)
    (ops : List BuilderOp) :
    (applyOps (Builder.new_internal h o) ops).contains_orchard
      = ops.any BuilderOp.isOrchardOp := by
  rw [applyOps_contains_orchard]
  simp [Builder.new_internal]

theorem contains_orchard_latches_witness :
    (applyOps (Builder.new_internal 0 none)
        [BuilderOp.orchSpend 7 ⟨5⟩ ⟨0⟩]).contains_orchard
      = [BuilderOp.orchSpend 7 ⟨5⟩ ⟨0⟩].any BuilderOp.isOrchardOp :=
  contains_orchard_latches 0 none [BuilderOp.orchSpend 7 ⟨5⟩ ⟨0⟩]

/-- C4 counterexample: `set_custom_fee` stores an arbitrary amount
unchecked, so one call with -1 zat leaves a negative fee, refuting the
claimed invariant. -/
theorem fee_counterexample :
    ((Builder.new_internal 0 none).set_custom_fee (-1)).fee = -1 ∧
    ¬ (0 ≤ ((Builder.new_internal 0 none).set_custom_fee (-1)).fee) :=
  ⟨rfl, by decide⟩

/-- C4 (amended): the fee starts at the non-negative `DEFAULT_FEE` and
only `set_custom_fee` changes it, storing its argument unchecked; hence
the fee stays non-negative at every point of any run in which every
`set_custom_fee` argument is non-negative, and a negative argument makes
the fee negative. -/
theorem fee_nonneg_preserved (h : Nat) (o : Option OrchardInnerState)
    (ops : List BuilderOp)
    (hops : ∀ a : Int, BuilderOp.setCustomFee a ∈ ops → 0 ≤ a) :
    0 ≤ (applyOps (Builder.new_internal h o) ops).fee :=
  applyOps_fee_nonneg ops (Builder.new_internal h o)
    (by show (0 : Int) ≤ DEFAULT_FEE; decide) hops

theorem fee_nonneg_preserved_witness :
    0 ≤ (applyOps (Builder.new_internal 0 none)
          [BuilderOp.setCustomFee 5]).fee :=
  fee_nonneg_preserved 0 none [BuilderOp.setCustomFee 5]
    (by intro a ha; simp at ha; omega)

/-- C5: on every builder whose Orchard pool is not enabled, meaning the
inner Orchard builder is absent, both `add_orchard_spend` and
`add_orchard_output` return the error `NU5Inactive`. -/
theorem orchard_ops_nu5_inactive (b : Builder) (sk : Nat) (note : OrchardNote)
    (path : OrchardPath) (value : Nat) (h : b.orchard_builder = none) :
    (b.add_orchard_spend sk note path).2 = .error .NU5Inactive ∧
    (b.add_orchard_output value).2 = .error .NU5Inactive := by
  constructor
  · simp only [Builder.add_orchard_spend, h]
  · simp only [Builder.add_orchard_output, h]

theorem orchard_ops_nu5_inactive_witness :
    ((Builder.new_internal 3 none).add_orchard_spend 1 ⟨5⟩ ⟨0⟩).2
        = .error .NU5Inactive ∧
    ((Builder.new_internal 3 none).add_orchard_output 4).2
        = .error .NU5Inactive :=
  orchard_ops_nu5_inactive (Builder.new_internal 3 none) 1 ⟨5⟩ ⟨0⟩ 4 rfl

/-- C8: building a freshly constructed builder with no inputs or outputs
fails with `ChangeIsNegative` carrying zero minus the default fee. -/
theorem empty_builder_change_negative (h : Nat) :
    buildTx (Builder.new_internal h none)
      = .error (.ChangeIsNegative (0 - DEFAULT_FEE)) := rfl

theorem empty_builder_change_negative_witness :
    buildTx (Builder.new_internal 0 none)
      = .error (.ChangeIsNegative (0 - DEFAULT_FEE)) :=
  empty_builder_change_negative 0

/-- C9: builder-error equality is variant-by-variant: it coincides with
the specified relation (structural on payloads, canonical-string on
`OrchardBuild`, reflexive on payload-free variants) and never identifies
errors of different variants. -/
theorem error_eq_characterization :
    (∀ e f : Error, errorEq e f = true ↔ errorEqSpec e f) ∧
    (∀ e f : Error, e.variantTag ≠ f.variantTag → errorEq e f = false) := by
  constructor
  · intro e f
    cases e <;> cases f <;> simp [errorEq, errorEqSpec]
  · intro e f h
    cases e <;> cases f <;> first
      | exact absurd rfl h
      | rfl

theorem error_eq_characterization_witness :
    errorEq Error.InvalidAmount Error.NoChangeAddress = false :=
  error_eq_characterization.2 Error.InvalidAmount Error.NoChangeAddress
    (by decide)

/-- C10: every successfully built transaction has lock time zero; the
builder state carries no lock-time field, so no operation can change it. -/
theorem lock_time_zero (b : Builder) (tx : TxData) (tr : List BuildEvent)
    (hb : buildTx b = .ok (tx, tr)) : tx.lock_time = 0 := by
  unfold buildTx at hb
  cases hr : resolveChange b with
  | error e => simp only [hr] at hb; exact absurd hb (by simp)
  | ok b2 =>
    simp only [hr, Except.ok.injEq, Prod.mk.injEq] at hb
    obtain ⟨h1, h2⟩ := hb
    subst h1
    rfl

theorem lock_time_zero_witness : exTransparentOnlyTx.lock_time = 0 :=
  lock_time_zero exTransparentOnly exTransparentOnlyTx sigTrace rfl

/-- The builder with one Sapling change output of value `c` for the pair
(ovk, addr) appended, with an empty memo: the shape of the injection the
change branch of `Builder::build` performs. -/
def injectChange (b : Builder) (ovk addr : Nat) (c : Int) : Builder :=
  { b with sapling_builder := { b.sapling_builder with
      outputs := b.sapling_builder.outputs
        ++ [⟨some ovk, addr, c, MemoBytes.empty⟩] } }

/-- As `injectChange`, additionally clearing the explicit change
recipient, which the source takes out of the builder before use. -/
def injectChangeExplicit (b : Builder) (ovk addr : Nat) (c : Int) : Builder :=
  { injectChange b ovk addr c with change_address := none }

/-- C1: for every build whose pool balances sum to `vb` and whose checked
change `vb - fee` is `c`: a negative `c` makes the build fail with
`ChangeIsNegative c`; a zero `c` leaves the builder unchanged, adding no
change output; a positive `c` injects exactly one Sapling output worth
`c` with an empty memo, addressed to the explicit change recipient when
`send_change_to` was called and otherwise to the (ovk, address) pair of
the first Sapling spend; and with positive `c`, no explicit recipient and
no Sapling spend the build fails with `NoChangeAddress`. -/
theorem change_resolution_spec (b : Builder) (vb c : Int)
    (hvb : b.value_balance = .ok vb) (hc : amountSub vb b.fee = some c) :
    (c < 0 → buildTx b = .error (.ChangeIsNegative c)) ∧
    (c = 0 → resolveChange b = .ok b) ∧
    (∀ ovk addr, 0 < c →
      b.change_address = some (ChangeAddress.SaplingChangeAddress ovk addr) →
      resolveChange b = .ok (injectChangeExplicit b ovk addr c)) ∧
    (∀ sp tl, 0 < c → b.change_address = none →
      b.sapling_builder.spends = sp :: tl →
      resolveChange b = .ok (injectChange b sp.ovk sp.addr c)) ∧
    (0 < c → b.change_address = none → b.sapling_builder.spends = [] →
      buildTx b = .error .NoChangeAddress) := by
  obtain ⟨hceq, hlow, hhigh⟩ :=
    amountFromI64_eq (show amountFromI64 (vb - b.fee) = some c from hc)
  refine ⟨?_, ?_, ?_, ?_, ?_⟩
  · intro hneg
    unfold buildTx resolveChange
    simp only [hvb, hc]
    rw [if_pos hneg]
  · intro h0
    unfold resolveChange
    simp only [hvb, hc]
    rw [if_neg (by omega), if_neg (by omega)]
  · intro ovk addr hpos hca
    unfold resolveChange
    simp only [hvb, hc, hca]
    rw [if_neg (by omega), if_pos hpos]
    unfold SaplingBuilderState.add_output
    rw [if_neg (by omega)]
    rfl
  · intro sp tl hpos hca hspends
    unfold resolveChange
    simp only [hvb, hc, hca, SaplingBuilderState.get_candidate_change_address,
      hspends, List.head?_cons, Option.map_some']
    rw [if_neg (by omega), if_pos hpos]
    unfold SaplingBuilderState.add_output
    rw [if_neg (by omega), ← hca]
    rfl
  · intro hpos hca hspends
    have hres : resolveChange b = .error .NoChangeAddress := by
      unfold resolveChange
      simp only [hvb, hc, hca, SaplingBuilderState.get_candidate_change_address,
        hspends, List.head?_nil, Option.map_none']
      rw [if_neg (by omega), if_pos hpos]
    unfold buildTx
    rw [hres]

theorem change_resolution_spec_witness :
    resolveChange exSpend = .ok exSpendChanged :=
  (change_resolution_spec exSpend 20000 10000 rfl rfl).2.2.2.1
    ⟨1, 2, 20000⟩ [] (by decide) rfl rfl

/-- C2: for every successful build, after the change-resolution step the
sum over all pools of the final value balances, with the Sapling pool
including any injected change output, equals the unchanged fee of the
builder. -/
theorem balance_after_change (b : Builder) (tx : TxData) (tr : List BuildEvent)
    (hb : buildTx b = .ok (tx, tr)) :
    (resolveChange b).map Builder.rawBalance = .ok b.fee ∧
    (resolveChange b).map Builder.fee = .ok b.fee := by
  unfold buildTx at hb
  cases hr : resolveChange b with
  | error e => simp only [hr] at hb; exact absurd hb (by simp)
  | ok b2 =>
  obtain ⟨vb, c, hvb, hsub, hc0, hfee, hco, htb, hob, hti, hto, hth, hsvb⟩ :=
    resolveChange_ok hr
  have hraw := value_balance_raw hvb
  have hcv := (amountFromI64_eq
    (show amountFromI64 (vb - b.fee) = some c from hsub)).1
  constructor
  · simp only [Except.map, Except.ok.injEq]
    unfold Builder.rawBalance at hraw ⊢
    rw [htb, hob, hti, hto, hsvb]
    omega
  · simp only [Except.map, Except.ok.injEq]
    exact hfee

theorem balance_after_change_witness :
    (resolveChange exTransparentOnly).map Builder.rawBalance
        = .ok exTransparentOnly.fee ∧
    (resolveChange exTransparentOnly).map Builder.fee
        = .ok exTransparentOnly.fee :=
  balance_after_change exTransparentOnly exTransparentOnlyTx sigTrace rfl

/-- C6 counterexample: in the successful build of a builder holding one
transparent input, the transparent signature application precedes the
computation of the shielded signable commitment, so the claim that the
commitment is computed strictly before any signature fails. -/
theorem commitment_order_counterexample :
    (buildTx exFunded).map (fun p => commitmentPrecedesSignatures p.2)
      = .ok false := rfl

/-- C6 (amended): in every successful build the txid digest is computed
first, before every signature application and before the Orchard proof;
only transparent and TZE signature applications may precede the shielded
signable commitment, which is always computed (from the unsigned
skeleton) and is followed only by the Sapling binding signature, the
Orchard proof, and the Orchard signatures. -/
theorem digest_order_amended (b : Builder) (tx : TxData) (tr : List BuildEvent)
    (hb : buildTx b = .ok (tx, tr)) : amendedDigestOrder tr = true := by
  unfold buildTx at hb
  cases hr : resolveChange b with
  | error e => simp only [hr] at hb; exact absurd hb (by simp)
  | ok b2 =>
  simp only [hr] at hb
  cases hbt : b2.transparent_builder.build <;>
  cases hbz : b2.tzeBuild <;>
  cases hbs : b2.sapling_builder.build <;>
  cases hbo : (if b2.contains_orchard then orchardBuild b2.orchard_builder
      else none) <;>
  · simp only [hbt, hbz, hbs, hbo, Option.isSome_some, Option.isSome_none,
      Bool.false_eq_true, if_false, if_true, Except.ok.injEq,
      Prod.mk.injEq] at hb
    obtain ⟨h1, h2⟩ := hb
    rw [← h2]
    decide

theorem digest_order_amended_witness : amendedDigestOrder sigTrace = true :=
  digest_order_amended exFunded exFundedTx sigTrace rfl

/-- C7: in every successful build in which no Sapling spend and no
Sapling output was ever added and the change-resolution step injected
nothing, the transaction carries no Sapling bundle; and an Orchard bundle
is present only when `contains_orchard` is true. -/
theorem noop_bundles_elided (b : Builder) (tx : TxData) (tr : List BuildEvent)
    (hb : buildTx b = .ok (tx, tr)) :
    (resolveChange b = .ok b → b.sapling_builder.spends = [] →
      b.sapling_builder.outputs = [] → tx.sapling_bundle = none) ∧
    (tx.orchard_bundle.isSome = true → b.contains_orchard = true) := by
  unfold buildTx at hb
  cases hr : resolveChange b with
  | error e => simp only [hr] at hb; exact absurd hb (by simp)
  | ok b2 =>
  simp only [hr, Except.ok.injEq, Prod.mk.injEq] at hb
  obtain ⟨h1, h2⟩ := hb
  subst h1
  constructor
  · intro hrb hsp hout
    injection hrb with hrb
    subst hrb
    show SaplingBuilderState.build _ = none
    unfold SaplingBuilderState.build
    rw [if_pos ⟨hsp, hout⟩]
  · intro horch
    obtain ⟨vb, c, hvb, hsub, hc0, hfee, hco, htb, hob, hti, hto, hth, hsvb⟩ :=
      resolveChange_ok hr
    rw [← hco]
    by_contra hfalse
    rw [Bool.not_eq_true] at hfalse
    have horch2 : (if b2.contains_orchard then orchardBuild b2.orchard_builder
        else none).isSome = true := horch
    rw [hfalse] at horch2
    simp at horch2

theorem noop_bundles_elided_witness : exTransparentOnlyTx.sapling_bundle = none :=
  (noop_bundles_elided exTransparentOnly exTransparentOnlyTx sigTrace rfl).1
    rfl rfl rfl

end ZcashBuilder
